import Mathlib

/-!
Verification of the component-tagging and pick-resolution system of the
3D kitchen scene (`assets/js/main.js`).

The embedding models:
* `userData` metadata bags on scene nodes (`UserData`), where a JS field
  that is absent or `undefined` is modelled as the falsy default of its
  type (`false` for booleans, `""` for strings), which coincides with how
  the code consumes these fields (only through truthiness tests and `||`).
* `createComponent` (main.js lines 21–36): tag attachment.
* The scene tree (`Node`/`NodeList`) with visibility flags, and the
  renderer collaborator's recursive, visibility-aware, distance-ordered
  ray intersection (`intersectObjects`).
* `onMouseClick` (lines 1019–1037): filtering of the intersection list and
  resolution to a tag (own tag first, else the immediate parent's).
* `displayComponentInfo` / `hideComponentInfo` (lines 1039–1048): the
  selection-display surface.
* `onWindowResize` (lines 1053–1066): orthographic frustum recomputation.
-/

/-- JS `a || b` on strings, where an absent/undefined field is modelled as
`""` (both are falsy, and the code only distinguishes them by truthiness). -/
def stringOr (a b : String) : String :=
  if a = "" then b else a

/-- The `userData` metadata bag of a scene object.  A plain (untagged)
object has `userData = {}`, modelled by every field at its falsy default.
`desc` is carried because `displayComponentInfo` probes `data.desc` as a
legacy fallback. -/
structure UserData where
  isComponent : Bool := false
  name : String := ""
  details : String := ""
  desc : String := ""
  specs : String := ""
deriving Repr, DecidableEq

/-- `userData` of an untagged object (the JS empty bag `{}`). -/
def emptyUserData : UserData := {}

/-- The `details` payload accepted by `createComponent`: an object whose
`description`, `desc` and `specs` fields may each be absent (`none`). -/
structure DetailsPayload where
  description : Option String := none
  desc : Option String := none
  specs : Option String := none
deriving Repr, DecidableEq

/-- A position in space (the `position` argument of `createComponent`). -/
structure Vec3 where
  x : ℚ := 0
  y : ℚ := 0
  z : ℚ := 0
deriving Repr, DecidableEq

mutual
/-- A scene-graph object (`THREE.Object3D`/`Mesh`): an identifier (standing
for its geometry, used by the ray model to say which objects the ray
strikes), position, visibility flag, shadow hints, `userData` bag and
children. -/
inductive Node : Type where
  | mk (id : Nat) (position : Vec3) (visible castShadow receiveShadow : Bool)
       (userData : UserData) (children : NodeList) : Node
/-- A list of scene-graph objects (`Object3D.children`). -/
inductive NodeList : Type where
  | nil : NodeList
  | cons (n : Node) (ns : NodeList) : NodeList
end

def Node.id : Node → Nat
  | .mk i _ _ _ _ _ _ => i

def Node.position : Node → Vec3
  | .mk _ p _ _ _ _ _ => p

def Node.visible : Node → Bool
  | .mk _ _ v _ _ _ _ => v

def Node.castShadow : Node → Bool
  | .mk _ _ _ c _ _ _ => c

def Node.receiveShadow : Node → Bool
  | .mk _ _ _ _ r _ _ => r

def Node.userData : Node → UserData
  | .mk _ _ _ _ _ u _ => u

def Node.children : Node → NodeList
  | .mk _ _ _ _ _ _ cs => cs

/--
`createComponent(geometry, material, position, name, details)`
(main.js lines 21–36): builds a mesh at the given position, casting and
receiving shadows, and attaches
`userData = { isComponent: true, name, details: description, specs }`
where `description = details?.description ?? details?.desc ?? ''` and
`specs = details?.specs ?? ''`.  The geometry and material only affect
rendering and are abstracted into the node identifier.
-/
def createComponent (id : Nat) (position : Vec3) (name : String)
    (details : Option DetailsPayload) : Node :=
  let description :=
    match details.bind DetailsPayload.description with
    | some s => s
    | none =>
      match details.bind DetailsPayload.desc with
      | some s => s
      | none => ""
  let specs :=
    match details.bind DetailsPayload.specs with
    | some s => s
    | none => ""
  Node.mk id position true true true
    { isComponent := true, name := name, details := description, specs := specs }
    NodeList.nil

/-- One entry of the raycaster's intersection list: the distance along the
ray, the struck object's visibility flag and `userData`, its `id`, and the
`userData` of `object.parent` (`none` when the object has no parent). -/
structure Hit where
  distance : ℚ
  objId : Nat
  visible : Bool
  objectData : UserData
  parentData : Option UserData
deriving Repr, DecidableEq

/-- The filter of main.js line 1028:
`i.object.userData.isComponent || (i.object.parent && i.object.parent.userData.isComponent)`. -/
def hitSurvives (h : Hit) : Bool :=
  h.objectData.isComponent ||
    (match h.parentData with
     | some p => p.isComponent
     | none => false)

/-- The filtered intersection list of main.js lines 1027–1028 (the
collaborator's list is already distance-ordered, cf. §4.2 step 4). -/
def pickIntersects (hits : List Hit) : List Hit :=
  hits.filter hitSurvives

/-- Main.js line 1032:
`object.userData.isComponent ? object.userData : object.parent.userData`.
(After the filter, an untagged survivor always has a parent; `emptyUserData`
is the unreachable default for a missing parent.) -/
def resolveHit (h : Hit) : UserData :=
  if h.objectData.isComponent then h.objectData
  else
    match h.parentData with
    | some p => p
    | none => emptyUserData

/-- Pick resolution (main.js lines 1030–1033): the nearest surviving entry's
own tag if tagged, else its parent's tag; `none` when nothing survives. -/
def resolvePick (hits : List Hit) : Option UserData :=
  match pickIntersects hits with
  | [] => none
  | h :: _ => some (resolveHit h)

/-- The display surface: the info panel's visibility (`classList` holding
`visible`) and the three text nodes. -/
structure Display where
  visible : Bool := false
  name : String := ""
  details : String := ""
  specs : String := ""
deriving Repr, DecidableEq

/-- `displayComponentInfo(data)` (main.js lines 1039–1044). -/
def displayComponentInfo (d : Display) (data : UserData) : Display :=
  { d with
    visible := true
    name := stringOr data.name "Component"
    details := stringOr data.details (stringOr data.desc "")
    specs := "Specifications: " ++ stringOr data.specs "" }

/-- `hideComponentInfo()` (main.js lines 1046–1048): removes the `visible`
class; the text nodes are left as they were. -/
def hideComponentInfo (d : Display) : Display :=
  { d with visible := false }

/-- The selection-display state machine of spec §4.3. -/
inductive SelState where
  | Empty : SelState
  | Showing (name details specs : String) : SelState
deriving Repr, DecidableEq

/-- The selection state reflected by the display surface. -/
def selStateOf (d : Display) : SelState :=
  if d.visible then .Showing d.name d.details d.specs else .Empty

/-- The branch of `onMouseClick` after the intersection list is computed
(main.js lines 1030–1036). -/
def onMouseClick (hits : List Hit) (d : Display) : Display :=
  match pickIntersects hits with
  | [] => hideComponentInfo d
  | h :: _ => displayComponentInfo d (resolveHit h)

/-- A ray, abstracted to the geometric part left to the renderer
collaborator: for each object identifier, `some d` when the ray strikes
that object's geometry at distance `d` from the camera, `none` when it
misses it. -/
def Ray : Type := Nat → Option ℚ

mutual
/-- Modelled from the spec: the renderer collaborator's recursive ray
intersection (`raycaster.intersectObjects(scene.children, true)`, spec §2
and §4.2 step 2 — the raycaster itself is external library code, not in
this repository).  It visits every node of the tree, "respecting each
node's current visibility flag (invisible nodes are excluded from
hit-testing)", and records for each struck node its distance, visibility,
`userData` and its parent's `userData`. -/
def collectHits (ray : Ray) (parent : Option UserData) : Node → List Hit
  | .mk i _ v _ _ u cs =>
    (match ray i with
     | some dist =>
       if v then [{ distance := dist, objId := i, visible := v,
                    objectData := u, parentData := parent }]
       else []
     | none => []) ++ collectHitsList ray (some u) cs
/-- `collectHits` over a child list. -/
def collectHitsList (ray : Ray) (parent : Option UserData) : NodeList → List Hit
  | .nil => []
  | .cons n ns => collectHits ray parent n ++ collectHitsList ray parent ns
end

/-- Insert a hit into a distance-ordered list, keeping it ordered. -/
def insertHit (h : Hit) : List Hit → List Hit
  | [] => [h]
  | h' :: t => if h.distance ≤ h'.distance then h :: h' :: t
               else h' :: insertHit h t

/-- Sort an intersection list by ascending distance (the collaborator
returns "a distance-ordered list", spec §6; three.js sorts by `distance`). -/
def sortHits : List Hit → List Hit
  | [] => []
  | h :: t => insertHit h (sortHits t)

/-- Modelled from the spec: the full collaborator call
`raycaster.intersectObjects(scene.children, true)` — recursive,
visibility-aware intersection of the ray against the scene's children
(each of which has the scene itself, whose `userData` is the empty bag,
as parent), returned ordered by ascending distance. -/
def intersectObjects (ray : Ray) (roots : NodeList) : List Hit :=
  sortHits (collectHitsList ray (some emptyUserData) roots)

/-- Pick resolution from a pointer event against a scene tree:
the composition of the collaborator's intersection and the filter/resolve
logic of `onMouseClick`. -/
def resolvePickScene (ray : Ray) (roots : NodeList) : Option UserData :=
  resolvePick (intersectObjects ray roots)

/-- The orthographic camera's frustum parameters. -/
structure Camera where
  left : ℚ
  right : ℚ
  top : ℚ
  bottom : ℚ
  near : ℚ
  far : ℚ
deriving Repr, DecidableEq

/-- `frustumSize = 16` (main.js line 10). -/
def frustumSize : ℚ := 16

/-- `halfFrustum = frustumSize / 2` (main.js line 11). -/
def halfFrustum : ℚ := frustumSize / 2

/-- `onWindowResize` (main.js lines 1053–1066): recompute the frustum for
the new aspect ratio (`newWidth / newHeight`), leaving near/far unchanged. -/
def onWindowResize (newWidth newHeight : ℚ) (c : Camera) : Camera :=
  let newAspect := newWidth / newHeight
  { c with
    left := -halfFrustum * newAspect
    right := halfFrustum * newAspect
    top := halfFrustum
    bottom := -halfFrustum }

/-- A pointer (click) event: viewport-relative coordinates and the current
viewport dimensions (`event.clientX`, `event.clientY`,
`window.innerWidth`, `window.innerHeight`). -/
structure PointerEvent where
  clientX : ℚ
  clientY : ℚ
  innerWidth : ℚ
  innerHeight : ℚ
deriving Repr, DecidableEq

/-- Normalized device coordinates of a pointer event (main.js lines
1021–1022): `x = (clientX / innerWidth) * 2 - 1`,
`y = -(clientY / innerHeight) * 2 + 1`. -/
def ndcOf (e : PointerEvent) : ℚ × ℚ :=
  ((e.clientX / e.innerWidth) * 2 - 1, -(e.clientY / e.innerHeight) * 2 + 1)

/-- The mutable globals touched by the interaction handlers: the `mouse`
vector, the camera, the scene tree and the display surface. -/
structure AppState where
  mouse : ℚ × ℚ
  camera : Camera
  sceneChildren : NodeList
  display : Display

/-- Modelled from the spec: `raycaster.setFromCamera(mouse, camera)`
followed by the geometric ray–scene tests is the renderer collaborator's
job (spec §2, §6); it is abstracted as a function from the normalized
device coordinates and camera to the set of struck objects with their
distances. -/
def CastRay : Type := ℚ × ℚ → Camera → Ray

/-- `onMouseClick(event)` (main.js lines 1019–1037) over the explicit
application state: store the event's normalized device coordinates in
`mouse`, intersect the ray cast through them against the scene's children,
filter and resolve, and update the display surface.  Returns the new state
together with the resolved tag (for stating determinism).  The scene tree
and camera are only read. -/
def clickStep (cast : CastRay) (e : PointerEvent) (s : AppState) :
    AppState × Option UserData :=
  let m := ndcOf e
  let hits := intersectObjects (cast m s.camera) s.sceneChildren
  let d' := onMouseClick hits s.display
  ({ s with mouse := m, display := d' }, resolvePick hits)

/-- `object.visible = false` assignment (e.g. `windowComponent.visible = false`,
main.js line 444). -/
def Node.setVisible (n : Node) (v : Bool) : Node :=
  match n with
  | .mk i p _ cS rS u cs => .mk i p v cS rS u cs

/-! ### The invisible-proxy window (createWindow, main.js lines ~400–449)

A group holds the visible, untagged `mainFrame` mesh (which itself holds
untagged panes); a separate `windowComponent` node built by
`createComponent` is made invisible, its `userData` is copied onto the
group, and both are added to the scene. -/

def windowDetails : DetailsPayload :=
  { description := some "Multi-pane crittall-style window providing ample natural light."
    specs := some "Dimensions: 2.5 x 4.0 units | Frame: Light Blue Steel" }

/-- The invisible tag-holder (`windowComponent`, lines 440–444). -/
def windowComponent : Node :=
  (createComponent 10 {} "Large Kitchen Window" (some windowDetails)).setVisible false

/-- An untagged window pane (line 430, `mainFrame.add(pane)`). -/
def pane : Node := .mk 12 {} true false false {} .nil

/-- The untagged main frame mesh (lines 420–421, `group.add(mainFrame)`). -/
def mainFrame : Node := .mk 11 {} true false false {} (.cons pane .nil)

/-- The window group, whose `userData` is copied from `windowComponent`
(line 445: `group.userData = windowComponent.userData`). -/
def windowGroup : Node :=
  .mk 13 {} true false false windowComponent.userData (.cons mainFrame .nil)

/-- `scene.children` for the window scenario (lines 446, 449). -/
def windowScene : NodeList := .cons windowGroup (.cons windowComponent .nil)

/-- A click ray that geometrically strikes the invisible proxy (nearer, at
distance 2) and the visible `mainFrame` sub-mesh (at distance 3). -/
def windowRay : Ray := fun i =>
  if i = 11 then some 3 else if i = 10 then some 2 else none

/-! ### The kettle (main.js lines 715–716) and two other tagged candidates -/

def kettle : Node :=
  createComponent 20 {} "Kettle"
    (some { desc := some "Electric kettle.", specs := some "Color: Blue" })

def toaster : Node :=
  createComponent 21 {} "Toaster"
    (some { desc := some "Two-slice toaster.", specs := some "Color: Yellow" })

def counterBack : Node :=
  createComponent 22 {} "Back Countertop (Granite)"
    (some { desc := some "Granite countertop.", specs := some "Finish: Polished Granite" })

def kettleScene : NodeList := .cons kettle (.cons toaster (.cons counterBack .nil))

/-- A ray striking all three candidates, the kettle nearest. -/
def kettleRay : Ray := fun i =>
  if i = 20 then some 2 else if i = 21 then some 5 else
  if i = 22 then some 7 else none

/-! ### A three-level nest: tagged grandparent, untagged parent, untagged leaf -/

/-- A scene whose single root carries tag `T` and holds an untagged child
group which holds an untagged leaf mesh. -/
def nestedScene (T : UserData) : NodeList :=
  .cons (.mk 30 {} true false false T
    (.cons (.mk 31 {} true false false {}
      (.cons (.mk 32 {} true false false {} .nil) .nil)) .nil)) .nil

/-- A ray striking only the leaf of `nestedScene`. -/
def leafOnlyRay : Ray := fun i => if i = 32 then some 4 else none

/-! ### Helper lemmas -/

theorem mem_insertHit {a h : Hit} : ∀ {l : List Hit},
    a ∈ insertHit h l → a = h ∨ a ∈ l
  | [], ha => by
    simp only [insertHit, List.mem_singleton] at ha
    exact Or.inl ha
  | h' :: t, ha => by
    simp only [insertHit] at ha
    split at ha
    · simpa using ha
    · rcases List.mem_cons.mp ha with h1 | h2
      · exact Or.inr (by simp [h1])
      · rcases mem_insertHit h2 with h3 | h4
        · exact Or.inl h3
        · exact Or.inr (List.mem_cons_of_mem _ h4)

theorem mem_sortHits {a : Hit} : ∀ {l : List Hit}, a ∈ sortHits l → a ∈ l
  | [], ha => by simp [sortHits] at ha
  | h :: t, ha => by
    simp only [sortHits] at ha
    rcases mem_insertHit ha with h1 | h2
    · simp [h1]
    · exact List.mem_cons_of_mem _ (mem_sortHits h2)

mutual
/-- Every hit the collaborator reports for a node has `visible = true`. -/
theorem visible_of_mem_collect (ray : Ray) (p : Option UserData) :
    ∀ (n : Node), ∀ h ∈ collectHits ray p n, h.visible = true
  | .mk i pos v cS rS u cs => by
    intro h hmem
    simp only [collectHits, List.mem_append] at hmem
    rcases hmem with hl | hr
    · cases hray : ray i with
      | none => simp [hray] at hl
      | some dist =>
        simp only [hray] at hl
        by_cases hv : v
        · simp only [hv, if_true, List.mem_singleton] at hl
          subst hl
          rfl
        · simp [hv] at hl
    · exact visible_of_mem_collectList ray (some u) cs h hr

/-- Every hit the collaborator reports for a node list has `visible = true`. -/
theorem visible_of_mem_collectList (ray : Ray) (p : Option UserData) :
    ∀ (ns : NodeList), ∀ h ∈ collectHitsList ray p ns, h.visible = true
  | .nil => by intro h hmem; simp [collectHitsList] at hmem
  | .cons n ns => by
    intro h hmem
    simp only [collectHitsList, List.mem_append] at hmem
    rcases hmem with hl | hr
    · exact visible_of_mem_collect ray p n h hl
    · exact visible_of_mem_collectList ray p ns h hr
end

mutual
/-- A ray that misses every object produces no hits on a node. -/
theorem collect_missAll (p : Option UserData) :
    ∀ (n : Node), collectHits (fun _ => none) p n = []
  | .mk i pos v cS rS u cs => by
    simp only [collectHits]
    rw [collectList_missAll (some u) cs]
    rfl
/-- A ray that misses every object produces no hits on a node list. -/
theorem collectList_missAll (p : Option UserData) :
    ∀ (ns : NodeList), collectHitsList (fun _ => none) p ns = []
  | .nil => rfl
  | .cons n ns => by
    simp only [collectHitsList]
    rw [collect_missAll p n, collectList_missAll p ns]
    rfl
end

/-! ## Claim theorems -/

/-- C1: Invisible nodes are never returned as pick-resolution intersection
targets: for every ray and scene tree, every entry of the filtered
intersection list has `visible = true`; and in the invisible-proxy window
scene (visible untagged sub-meshes under a group whose metadata was copied
from a separate invisible tag-holder), a click striking the `mainFrame`
sub-mesh — while geometrically crossing the nearer invisible tag-holder —
resolves to the group's tag. -/
theorem invisible_nodes_never_picked :
    (∀ (ray : Ray) (roots : NodeList),
      ∀ h ∈ pickIntersects (intersectObjects ray roots), h.visible = true)
    ∧ resolvePickScene windowRay windowScene = some windowGroup.userData := by
  constructor
  · intro ray roots h hmem
    have h1 : h ∈ intersectObjects ray roots := List.mem_of_mem_filter hmem
    exact visible_of_mem_collectList ray (some emptyUserData) roots h (mem_sortHits h1)
  · rfl

/-- Witness for C1: the single surviving hit of the window scenario (the
struck `mainFrame` sub-mesh) is visible. -/
theorem invisible_nodes_never_picked_witness :
    ({ distance := 3, objId := 11, visible := true, objectData := {},
       parentData := some windowComponent.userData } : Hit).visible = true :=
  invisible_nodes_never_picked.1 windowRay windowScene _ (by decide)

/-- C2: pick resolution keeps only entries whose struck node is tagged or
whose immediate parent is tagged; on a distance-ordered intersection list
the surviving head is nearest among survivors, and resolution yields the
struck node's own tag when it is tagged, falling back to the immediate
parent's tag only when the struck node is untagged. -/
theorem pick_resolution_nearest_own_tag_first :
    ∀ (hits : List Hit),
      hits.Pairwise (fun a b => a.distance ≤ b.distance) →
      ((∀ h ∈ pickIntersects hits,
          h.objectData.isComponent = true ∨
          ∃ p, h.parentData = some p ∧ p.isComponent = true)
       ∧ (∀ h t, pickIntersects hits = h :: t →
            (∀ h' ∈ pickIntersects hits, h.distance ≤ h'.distance)
            ∧ (h.objectData.isComponent = true → resolvePick hits = some h.objectData)
            ∧ (h.objectData.isComponent = false →
                ∀ p, h.parentData = some p → resolvePick hits = some p))) := by
  intro hits hsorted
  constructor
  · intro h hmem
    have hs : hitSurvives h = true := List.of_mem_filter hmem
    unfold hitSurvives at hs
    rcases (Bool.or_eq_true _ _).mp hs with h1 | h2
    · exact Or.inl h1
    · cases hp : h.parentData with
      | none => rw [hp] at h2; exact absurd h2 (by simp)
      | some p => rw [hp] at h2; exact Or.inr ⟨p, rfl, by simpa using h2⟩
  · intro h t hft
    refine ⟨?_, ?_, ?_⟩
    · intro h' hmem'
      have hp : (pickIntersects hits).Pairwise (fun a b => a.distance ≤ b.distance) :=
        hsorted.filter _
      rw [hft] at hp hmem'
      rcases List.mem_cons.mp hmem' with heq | hmem''
      · exact le_of_eq (by rw [heq])
      · exact (List.pairwise_cons.mp hp).1 h' hmem''
    · intro hcomp
      unfold resolvePick
      rw [hft]
      simp [resolveHit, hcomp]
    · intro hcomp p hpd
      unfold resolvePick
      rw [hft]
      simp [resolveHit, hcomp, hpd]

/-- The single tagged hit used to witness C2. -/
def directHit : Hit :=
  { distance := 1, objId := 0, visible := true,
    objectData := { isComponent := true, name := "A" },
    parentData := some {} }

/-- Witness for C2: a one-entry distance-ordered list whose struck node is
tagged resolves to that node's own tag. -/
theorem pick_resolution_nearest_own_tag_first_witness :
    resolvePick [directHit] = some directHit.objectData :=
  ((pick_resolution_nearest_own_tag_first [directHit] (by simp)).2
    directHit [] (by decide)).2.1 (by decide)

/-- C3: ancestor fallback is exactly one level.  Any pointer event all of
whose struck nodes are untagged with untagged immediate parents resolves to
`none`; in particular, in a scene whose leaf's grandparent carries a
Component Tag `T` while the leaf and its immediate parent are untagged, a
click striking only the leaf resolves to `none`. -/
theorem fallback_exactly_one_level :
    (∀ hits : List Hit,
      (∀ h ∈ hits, h.objectData.isComponent = false ∧
        ∀ p, h.parentData = some p → p.isComponent = false) →
      resolvePick hits = none)
    ∧ (∀ T : UserData, T.isComponent = true →
        resolvePickScene leafOnlyRay (nestedScene T) = none) := by
  constructor
  · intro hits hall
    have hfl : pickIntersects hits = [] := by
      apply List.filter_eq_nil_iff.mpr
      intro h hmem
      rcases hall h hmem with ⟨h1, h2⟩
      simp only [hitSurvives, h1, Bool.false_or]
      cases hp : h.parentData with
      | none => simp
      | some p => simpa using h2 p hp
    unfold resolvePick
    rw [hfl]
  · intro T hT
    rfl

/-- Witness for C3: a hit on an untagged node with untagged parent resolves
to `none`, and so does the concrete grandparent-tagged nest. -/
theorem fallback_exactly_one_level_witness :
    resolvePick [{ distance := 5, objId := 40, visible := true,
                   objectData := {}, parentData := some {} }] = none
    ∧ resolvePickScene leafOnlyRay
        (nestedScene { isComponent := true, name := "G" }) = none :=
  ⟨fallback_exactly_one_level.1 _
     (by
       intro h hmem
       rw [List.mem_singleton] at hmem
       subst hmem
       exact ⟨rfl, fun p hp => by cases hp; rfl⟩),
   fallback_exactly_one_level.2 _ rfl⟩

/-- C4: `createComponent` sets the tag's `details` to the payload's
`description` when that field is non-null (even when `desc` is also set:
`description` wins), to the legacy `desc` when `description` is
null/absent but `desc` is present, and to `""` when both are absent or the
payload itself is absent. -/
theorem createComponent_details_precedence :
    ∀ (id : Nat) (pos : Vec3) (name a b : String) (ob osp : Option String),
      ((createComponent id pos name
          (some { description := some a, desc := ob, specs := osp })).userData.details = a)
      ∧ ((createComponent id pos name
          (some { description := none, desc := some b, specs := osp })).userData.details = b)
      ∧ ((createComponent id pos name
          (some { description := none, desc := none, specs := osp })).userData.details = "")
      ∧ ((createComponent id pos name none).userData.details = "")
      ∧ ((createComponent id pos name none).userData.specs = "") :=
  fun _ _ _ _ _ _ _ => ⟨rfl, rfl, rfl, rfl, rfl⟩

/-- C5: a pointer event whose filtered intersection list is empty (in
particular any event whose ray misses every node) resolves to `none`, and
from any prior display state the display surface is hidden and the
selection state becomes `Empty`. -/
theorem miss_resolves_none_display_empty :
    (∀ roots : NodeList, intersectObjects (fun _ => none) roots = [])
    ∧ (∀ (hits : List Hit) (d : Display), pickIntersects hits = [] →
        resolvePick hits = none
        ∧ onMouseClick hits d = hideComponentInfo d
        ∧ (onMouseClick hits d).visible = false
        ∧ selStateOf (onMouseClick hits d) = SelState.Empty) := by
  constructor
  · intro roots
    unfold intersectObjects
    rw [collectList_missAll (some emptyUserData) roots]
    rfl
  · intro hits d hfl
    have h1 : resolvePick hits = none := by unfold resolvePick; rw [hfl]
    have h2 : onMouseClick hits d = hideComponentInfo d := by
      unfold onMouseClick; rw [hfl]
    refine ⟨h1, h2, ?_, ?_⟩
    · rw [h2]; rfl
    · rw [h2]; rfl

/-- Witness for C5: a click with no intersections, issued from a `Showing`
display state, hides the display. -/
theorem miss_resolves_none_display_empty_witness :
    resolvePick [] = none
    ∧ onMouseClick [] { visible := true, name := "Kettle", details := "x", specs := "y" } =
        hideComponentInfo { visible := true, name := "Kettle", details := "x", specs := "y" }
    ∧ (onMouseClick []
        { visible := true, name := "Kettle", details := "x", specs := "y" }).visible = false
    ∧ selStateOf (onMouseClick []
        { visible := true, name := "Kettle", details := "x", specs := "y" }) = SelState.Empty :=
  miss_resolves_none_display_empty.2 [] _ rfl

/-- C6: in the kettle scenario (tag built from `desc:"Electric kettle.",
specs:"Color: Blue"` on node K, a ray striking K nearest among three
candidates), resolution returns exactly the kettle's tag, and from any
prior display state the display shows name "Kettle", details
"Electric kettle." and the formatted specs line. -/
theorem kettle_scenario :
    resolvePickScene kettleRay kettleScene =
      some { isComponent := true, name := "Kettle", details := "Electric kettle.",
             desc := "", specs := "Color: Blue" }
    ∧ ∀ d : Display, onMouseClick (intersectObjects kettleRay kettleScene) d =
        { visible := true, name := "Kettle", details := "Electric kettle.",
          specs := "Specifications: Color: Blue" } :=
  ⟨rfl, fun _ => rfl⟩

/-- C7: pick resolution leaves the scene tree and camera unchanged, running
the handler twice on the same event resolves to the same tag, and the
resolved tag depends only on the camera, the scene tree and the input
point (not on the rest of the mutable state). -/
theorem resolution_deterministic_no_mutation :
    (∀ (cast : CastRay) (e : PointerEvent) (s : AppState),
      (clickStep cast e s).1.sceneChildren = s.sceneChildren
      ∧ (clickStep cast e s).1.camera = s.camera
      ∧ (clickStep cast e (clickStep cast e s).1).2 = (clickStep cast e s).2)
    ∧ (∀ (cast : CastRay) (e : PointerEvent) (s₁ s₂ : AppState),
        s₁.camera = s₂.camera → s₁.sceneChildren = s₂.sceneChildren →
        (clickStep cast e s₁).2 = (clickStep cast e s₂).2) := by
  constructor
  · intro cast e s
    exact ⟨rfl, rfl, rfl⟩
  · intro cast e s₁ s₂ hc hs
    unfold clickStep
    rw [hc, hs]

/-- Witness for C7: two states sharing camera and scene but differing in
mouse and display resolve identically. -/
theorem resolution_deterministic_no_mutation_witness :
    (clickStep (fun _ _ _ => none) ⟨0, 0, 1, 1⟩
      { mouse := (0, 0),
        camera := { left := -8, right := 8, top := 8, bottom := -8,
                    near := 1/10, far := 1000 },
        sceneChildren := .nil, display := {} }).2
    = (clickStep (fun _ _ _ => none) ⟨0, 0, 1, 1⟩
      { mouse := (1, 1),
        camera := { left := -8, right := 8, top := 8, bottom := -8,
                    near := 1/10, far := 1000 },
        sceneChildren := .nil, display := { visible := true } }).2 :=
  resolution_deterministic_no_mutation.2 _ _ _ _ rfl rfl

/-- C8: when a click resolves to a tag (`Showing`), issuing the same click
again leaves the display exactly as after the first click — visible, with
identical text, no toggling. -/
theorem showing_pick_idempotent :
    ∀ (cast : CastRay) (e : PointerEvent) (s : AppState) (u : UserData),
      (clickStep cast e s).2 = some u →
      ((clickStep cast e (clickStep cast e s).1).1.display
          = (clickStep cast e s).1.display
       ∧ (clickStep cast e s).1.display.visible = true) := by
  intro cast e s u hres
  have hres' : resolvePick
      (intersectObjects (cast (ndcOf e) s.camera) s.sceneChildren) = some u := hres
  cases hfl : pickIntersects
      (intersectObjects (cast (ndcOf e) s.camera) s.sceneChildren) with
  | nil =>
    unfold resolvePick at hres'
    rw [hfl] at hres'
    exact absurd hres' (by simp)
  | cons h t =>
    constructor
    · show onMouseClick (intersectObjects (cast (ndcOf e) s.camera) s.sceneChildren)
          (onMouseClick (intersectObjects (cast (ndcOf e) s.camera) s.sceneChildren)
            s.display)
        = onMouseClick (intersectObjects (cast (ndcOf e) s.camera) s.sceneChildren)
            s.display
      unfold onMouseClick
      rw [hfl]
      rfl
    · show (onMouseClick (intersectObjects (cast (ndcOf e) s.camera) s.sceneChildren)
          s.display).visible = true
      unfold onMouseClick
      rw [hfl]
      rfl

def c8Scene : NodeList :=
  .cons (.mk 0 {} true false false { isComponent := true, name := "A" } .nil) .nil

def c8Cast : CastRay := fun _ _ => fun i => if i = 0 then some 1 else none

def c8State : AppState :=
  { mouse := (0, 0),
    camera := { left := -8, right := 8, top := 8, bottom := -8,
                near := 1/10, far := 1000 },
    sceneChildren := c8Scene, display := {} }

/-- Witness for C8: a concrete click resolving to a tag is idempotent on
the display. -/
theorem showing_pick_idempotent_witness :
    (clickStep c8Cast ⟨0, 0, 1, 1⟩ (clickStep c8Cast ⟨0, 0, 1, 1⟩ c8State).1).1.display
        = (clickStep c8Cast ⟨0, 0, 1, 1⟩ c8State).1.display
    ∧ (clickStep c8Cast ⟨0, 0, 1, 1⟩ c8State).1.display.visible = true :=
  showing_pick_idempotent c8Cast ⟨0, 0, 1, 1⟩ c8State
    { isComponent := true, name := "A" } rfl

/-- C9: on resize to `(w, h)` the orthographic frustum is recomputed
symmetrically around the new aspect ratio `w / h`: `left = -halfFrustum *
aspect`, `right = halfFrustum * aspect`, `top = halfFrustum`,
`bottom = -halfFrustum`, so `left = -right` and `bottom = -top`. -/
theorem resize_symmetric_frustum :
    ∀ (w h : ℚ) (c : Camera),
      (onWindowResize w h c).left = -halfFrustum * (w / h)
      ∧ (onWindowResize w h c).right = halfFrustum * (w / h)
      ∧ (onWindowResize w h c).top = halfFrustum
      ∧ (onWindowResize w h c).bottom = -halfFrustum
      ∧ (onWindowResize w h c).left = -(onWindowResize w h c).right
      ∧ (onWindowResize w h c).bottom = -(onWindowResize w h c).top := by
  intro w h c
  refine ⟨rfl, rfl, rfl, rfl, ?_, rfl⟩
  show -halfFrustum * (w / h) = -(halfFrustum * (w / h))
  ring

/-- C10: when the resolved tag's name is the empty string the display shows
the placeholder "Component"; a non-empty name is shown verbatim. -/
theorem empty_name_placeholder :
    ∀ (d : Display) (data : UserData),
      (displayComponentInfo d data).name =
        (if data.name = "" then "Component" else data.name)
      ∧ (data.name ≠ "" → (displayComponentInfo d data).name = data.name) := by
  intro d data
  constructor
  · rfl
  · intro hne
    simp [displayComponentInfo, stringOr, hne]

/-- Witness for C10: an empty-named tag displays as "Component"; the
kettle's name displays verbatim. -/
theorem empty_name_placeholder_witness :
    (displayComponentInfo {} { isComponent := true, name := "" }).name = "Component"
    ∧ (displayComponentInfo {} { isComponent := true, name := "Kettle" }).name = "Kettle" :=
  ⟨by
     have hx := (empty_name_placeholder {} { isComponent := true, name := "" }).1
     simpa using hx,
   (empty_name_placeholder {} { isComponent := true, name := "Kettle" }).2 (by decide)⟩
